import Mathlib

/-!
Verification of the pyorcidator helper module (`src/pyorcidator/helper.py`).

The module converts a researcher's ORCID profile into Quickstatements text.
We embed the name-to-identifier resolution pipeline shallowly:

* Python `dict`s become association lists with insertion-order update
  semantics (`dict_set` overwrites in place, appends fresh keys at the end).
* The module-level `dicts` / `stem_to_path` vocabulary state becomes an
  explicit `VocabState` record threaded through the functions; writes of
  `Path.write_text` are recorded as `(stem, text)` events.
* External collaborators (`query_wikidata` from `.wikidata_lookup`,
  `add_key` from `wdcuration`) become function parameters.
* Fallible paths (the `NameError` that `get_date` raises when `year` is
  referenced without having been assigned) become `Option` results.
-/

set_option autoImplicit false

universe u

/-- A Python `dict` with string keys: an association list in insertion
order, where at most one entry per key is maintained by `dict_set`. -/
abbrev PyDict (β : Type u) := List (String × β)

/-- Key membership test, `k in d` in Python. -/
def dict_contains {β : Type u} (d : PyDict β) (k : String) : Bool :=
  d.any (fun p => p.1 = k)

/-- Python `d[k]`, as an `Option` (a missing key raises `KeyError`). -/
def dict_find {β : Type u} (d : PyDict β) (k : String) : Option β :=
  (d.find? (fun p => p.1 = k)).map Prod.snd

/-- Python `d[k]` with a default for the (erroneous) missing-key case. -/
def dict_get {β : Type u} [Inhabited β] (d : PyDict β) (k : String) : β :=
  (dict_find d k).getD default

/-- Python `d[k] = v`: overwrite in place when the key exists,
append at the end otherwise. -/
def dict_set {β : Type u} (d : PyDict β) (k : String) (v : β) : PyDict β :=
  if dict_contains d k then
    d.map (fun p => if p.1 = k then (k, v) else p)
  else
    d ++ [(k, v)]

/-- One line of a pretty-printed JSON object: a two-space indent, the
quoted key, a colon, and the quoted value. -/
def json_entry (p : String × String) : String :=
  "  \"" ++ p.1 ++ "\": \"" ++ p.2 ++ "\""

/-- Model of `json.dumps(data, indent=2, sort_keys=True, ensure_ascii=False)`
for a flat string-to-string mapping: keys sorted, two-space indent. -/
def json_dumps (d : PyDict String) : String :=
  let sorted := d.mergeSort (fun a b => a.1 ≤ b.1)
  if sorted.isEmpty then "\x7b\x7d"
  else "\x7b\n" ++ String.intercalate ",\n" (sorted.map json_entry) ++ "\n\x7d"

/-- The global vocabulary state of the module: `dicts` (stem to mapping,
loaded from the JSON files in `dictionaries/`) together with the history of
`stem_to_path[key].write_text(...)` calls performed so far. -/
structure VocabState where
  dicts : PyDict (PyDict String)
  writes : List (String × String)
deriving DecidableEq

/-- Modelled from the spec: `add_key` (from the external `wdcuration`
package, not part of this repository) interactively obtains an identifier
for `target_item` and inserts it into the in-memory mapping. The
operator's choice is the `assign` parameter. -/
def add_key (assign : String → String) (data : PyDict String) (target_item : String) :
    PyDict String :=
  dict_set data target_item (assign target_item)

/-- Translation of `get_qid_for_item(key, target_item)`: look the label up
in `dicts[key]`; on a miss, let `add_key` extend the mapping and persist
the whole updated mapping (pretty-printed, sorted keys) to the stem's
path, then return the (now present) identifier. -/
def get_qid_for_item (assign : String → String) (st : VocabState)
    (key target_item : String) : String × VocabState :=
  let data := dict_get st.dicts key
  if ¬ dict_contains data target_item then
    let data := add_key assign data target_item
    let st : VocabState :=
      { dicts := dict_set st.dicts key data
        writes := st.writes ++ [(key, json_dumps data)] }
    (dict_get data target_item, st)
  else
    (dict_get data target_item, st)

/-- One SPARQL result binding as used by `lookup_id`: the `item.value`
field (an entity URI). Modelled from the spec: `query_wikidata` (from
`.wikidata_lookup`, not under `src/`) returns a list of such bindings. -/
structure Binding where
  item_value : String
deriving DecidableEq

/-- The exact query text interpolated in `lookup_id`. -/
def build_query (property id : String) : String :=
  "        SELECT ?item ?itemLabel\n        WHERE\n        \x7b\n            ?item wdt:"
    ++ property ++ " \"" ++ id ++ "\" .\n        \x7d\n    "

/-- Python `s.split(sep)` for a one-character separator: splitting the
empty string yields `[""]`, and a trailing separator yields a trailing
empty group, as in Python. -/
def py_split (sep : Char) : List Char → List (List Char)
  | [] => [[]]
  | c :: rest =>
    match py_split sep rest with
    | [] => [[]]
    | g :: gs => if c = sep then [] :: g :: gs else (c :: g) :: gs

/-- Translation of `lookup_id(id, property, default)`: query Wikidata for
the entity carrying `property = id`; on exactly one binding return the
last path segment (`.split("/")[-1]`) of its item URI, otherwise return
`default`. -/
def lookup_id (query_wikidata : String → List Binding)
    (id property default : String) : String :=
  let query := build_query property id
  let bindings := query_wikidata query
  match bindings with
  | [b] => String.mk ((py_split '/' b.item_value.toList).getLastD [])
  | _ => default

/-- Python `str(...)` on an optional string, as used when a `None`
identifier is interpolated into the query (`str(None) = "None"`). -/
def py_str : Option String → String
  | none => "None"
  | some s => s

/-- The `disambiguated-organization` block of an ORCID organization.
`none` in a field models both an absent key and an explicit JSON null
(Python's `d.get(k) == "GRID"` treats the two alike). -/
structure DisambiguatedOrganization where
  disambiguation_source : Option String
  disambiguated_organization_identifier : Option String
deriving DecidableEq

/-- An ORCID organization record: a plain name and an optional
disambiguation block. -/
structure Organization where
  name : String
  disambiguated_organization : Option DisambiguatedOrganization
deriving DecidableEq

/-- Translation of `get_institution_qid(data_entry, name)`: when the
disambiguation block is present with source `"GRID"`, look the GRID
identifier up remotely under P2427 with `name` as default (the identifier
is interpolated via `str`, so a null becomes `"None"`); otherwise resolve
`name` through the `institutions` vocabulary. -/
def get_institution_qid (query_wikidata : String → List Binding)
    (assign : String → String) (st : VocabState)
    (data_entry : Organization) (name : String) : String × VocabState :=
  match data_entry.disambiguated_organization with
  | some d =>
    if d.disambiguation_source = some "GRID" then
      let grid := d.disambiguated_organization_identifier
      (lookup_id query_wikidata (py_str grid) "P2427" name, st)
    else
      get_qid_for_item assign st "institutions" name
  | none => get_qid_for_item assign st "institutions" name

/-- One `start-date` or `end-date` block of an ORCID record; each component
is `\x7b"value": ...\x7d` or null. -/
structure DateBlock where
  year : Option String
  month : Option String
  day : Option String
deriving DecidableEq

/-- Translation of `get_date(entry, start_or_end)`, applied to the
selected date block. A `none` result models the `NameError` raised when
`year` is referenced in the format string without having been assigned
(`precision` can only be unassigned when `year` is too). -/
def get_date (entry_date : Option DateBlock) : Option String :=
  match entry_date with
  | none => some ""
  | some date =>
    let month := "00"
    let day := "00"
    let year : Option String := none
    let precision : Option Nat := none
    let (year, precision) :=
      match date.year with
      | some y => (some y, some 9)
      | none => (year, precision)
    let (month, precision) :=
      match date.month with
      | some m => (m, some 10)
      | none => (month, precision)
    let (day, precision) :=
      match date.day with
      | some d => (d, some 11)
      | none => (day, precision)
    match year, precision with
    | some y, some p =>
      some ("+" ++ y ++ "-" ++ month ++ "-" ++ day ++ "T00:00:00Z/" ++ toString p)
    | _, _ => none

/-- Single left-to-right pass of `re.findall("Q[0-9]*", s)`: `cur` holds
the reversed characters of the match currently being extended (a `Q`
followed by digits), or `none` when no match is open. A digit extends the
open match (maximal munch); a `Q` closes it and opens a new one; any
other character closes it. -/
def findall_Q_aux : Option (List Char) → List Char → List String
  | cur, [] =>
    match cur with
    | some ds => [String.mk ds.reverse]
    | none => []
  | cur, c :: rest =>
    match cur with
    | some ds =>
      if c.isDigit then findall_Q_aux (some (c :: ds)) rest
      else if c = 'Q' then String.mk ds.reverse :: findall_Q_aux (some ['Q']) rest
      else String.mk ds.reverse :: findall_Q_aux none rest
    | none =>
      if c = 'Q' then findall_Q_aux (some ['Q']) rest
      else findall_Q_aux none rest

/-- Model of `re.findall("Q[0-9]*", s)`: the list of non-overlapping
matches, scanned left to right. -/
def findall_Q (l : List Char) : List String :=
  findall_Q_aux none l

theorem findall_Q_aux_open_ne_nil (l : List Char) (ds : List Char) :
    findall_Q_aux (some ds) l ≠ [] := by
  induction l generalizing ds with
  | nil => simp [findall_Q_aux]
  | cons c rest ih =>
    simp only [findall_Q_aux]
    by_cases hd : c.isDigit
    · simpa [hd] using ih (c :: ds)
    · by_cases hq : c = 'Q' <;> simp [hd, hq]

theorem findall_Q_ne_nil_iff (l : List Char) :
    findall_Q l ≠ [] ↔ 'Q' ∈ l := by
  unfold findall_Q
  induction l with
  | nil => simp [findall_Q_aux]
  | cons c rest ih =>
    by_cases h : c = 'Q'
    · subst h
      simp only [findall_Q_aux, if_pos rfl]
      simpa using findall_Q_aux_open_ne_nil rest ['Q']
    · simp only [findall_Q_aux, if_neg h, List.mem_cons, ih]
      constructor
      · exact Or.inr
      · rintro (h' | h')
        · exact absurd h'.symm h
        · exact h'

/-- Translation of `process_item`: for each target, use the target itself
as the QID when `re.findall("Q[0-9]*", target_item)` is non-empty,
otherwise resolve it through the vocabulary; then append a statement line
with optional qualifier pairs and the reference fragment. -/
def process_item (assign : String → String) (qs : String) (property_id : String)
    (original_dict : String) (target_list : List String) (subject_qid ref : String)
    (qualifier_nested_dictionary : Option (PyDict (PyDict String)))
    (st : VocabState) : String × VocabState :=
  target_list.foldl
    (fun acc target_item =>
      let (qs, st) := acc
      let (qid, st) :=
        if findall_Q target_item.toList ≠ [] then (target_item, st)
        else get_qid_for_item assign st original_dict target_item
      let qs := qs ++ "\n" ++ subject_qid ++ "|" ++ property_id ++ "|" ++ qid
      let qs :=
        match qualifier_nested_dictionary with
        | some qnd =>
          let qualifier_pairs := dict_get qnd target_item
          qualifier_pairs.foldl (fun qs kv => qs ++ "|" ++ kv.1 ++ "|" ++ kv.2 ++ ref) qs
        | none => qs ++ ref
      (qs, st))
    (qs, st)

/-- Modelled from the spec: the `AffiliationEntry` dataclass lives in
`.classes`, which is not under `src/`; its fields are the resolved role
(optional), institution identifier, and rendered start/end dates. -/
structure AffiliationEntry where
  role : Option String
  institution : String
  start_date : String
  end_date : String
deriving DecidableEq

/-- One raw employment/education summary record as consumed by
`get_affiliation_info`: role title, date blocks, organization. -/
structure RawRecord where
  role_title : Option String
  start_date : Option DateBlock
  end_date : Option DateBlock
  organization : Organization
deriving DecidableEq

/-- Translation of `get_affiliation_info(data)`: per record, resolve the
role title (when present) through the `role` vocabulary, render both
dates, resolve the institution, and collect the entries in input order.
`none` models the `NameError` that `get_date` raises on a malformed
block. -/
def get_affiliation_info (query_wikidata : String → List Binding)
    (assign : String → String) :
    VocabState → List RawRecord → Option (List AffiliationEntry × VocabState)
  | st, [] => some ([], st)
  | st, data_entry :: rest =>
    let (role_qid, st1) :=
      match data_entry.role_title with
      | some title =>
        let (q, st') := get_qid_for_item assign st "role" title
        (some q, st')
      | none => (none, st)
    match get_date data_entry.start_date, get_date data_entry.end_date with
    | some start_date, some end_date =>
      let org := data_entry.organization
      let (institution_qid, st2) := get_institution_qid query_wikidata assign st1 org org.name
      let entry : AffiliationEntry :=
        { role := role_qid
          institution := institution_qid
          start_date := start_date
          end_date := end_date }
      match get_affiliation_info query_wikidata assign st2 rest with
      | some (entries, st3) => some (entry :: entries, st3)
      | none => none
    | _, _ => none

/-- Translation of `process_affiliation_entries`: render one statement
line per entry (institution value, optional role qualifier, start
qualifier when the start date is non-empty, end qualifier nested under
the start one, then the reference fragment). -/
def process_affiliation_entries (qs subject_qid ref : String)
    (affiliation_entries : List AffiliationEntry)
    (property_id role_property_id : String) : String :=
  affiliation_entries.foldl
    (fun qs entry =>
      let qs := qs ++ "\n        " ++ subject_qid ++ "|" ++ property_id ++ "|" ++ entry.institution
      let qs :=
        match entry.role with
        | some role => qs ++ "|" ++ role_property_id ++ "|" ++ role
        | none => qs
      let qs :=
        if entry.start_date ≠ "" then
          let qs := qs ++ "|P580|" ++ entry.start_date
          if entry.end_date ≠ "" then qs ++ "|P582|" ++ entry.end_date else qs
        else qs
      qs ++ ref)
    qs

/-- One element of the profile's `external-identifier` list. -/
structure ExternalId where
  external_id_type : String
  external_id_value : String
deriving DecidableEq

/-- Translation of `get_external_ids(data)`: fold the external-identifier
list into a dict keyed by `external-id-type` (later entries overwrite
earlier ones). -/
def get_external_ids (id_list : List ExternalId) : PyDict String :=
  id_list.foldl
    (fun id_dict i => dict_set id_dict i.external_id_type i.external_id_value) []

/-- The module-level `EXTERNAL_ID_PROPERTIES` constant. -/
def EXTERNAL_ID_PROPERTIES : PyDict String :=
  [("Loop profile", "P2798"), ("Scopus Author ID", "P1153"), ("ResearcherID", "P2038")]

/-- The external-identifier loop at the end of `render_orcid_qs`: one
statement line per dict entry whose type is recognized. -/
def render_external_id_statements (qs researcher_qid ref : String)
    (external_ids : PyDict String) : String :=
  external_ids.foldl
    (fun qs kv =>
      if dict_contains EXTERNAL_ID_PROPERTIES kv.1 then
        qs ++ "\n" ++ researcher_qid ++ "|" ++ dict_get EXTERNAL_ID_PROPERTIES kv.1
          ++ "|\"" ++ kv.2 ++ "\"" ++ ref
      else qs)
    qs

/-! ## Concrete fixtures shared by witnesses and counterexamples -/

/-- A deterministic stand-in for the interactive assignment operator. -/
def assign0 : String → String := fun _ => "Q999"

/-- A deterministic knowledge-base collaborator: exactly one binding for
the P2427 query about the stringified null identifier, none otherwise. -/
def qw0 : String → List Binding := fun q =>
  if q = build_query "P2427" "None" then [⟨"http://www.wikidata.org/entity/Q7"⟩] else []

/-- A vocabulary state with two known institutions and no roles. -/
def st0 : VocabState :=
  ⟨[("institutions", [("X", "Q9"), ("Queensland", "Q77")]), ("role", [])], []⟩

/-- A vocabulary state with empty mappings. -/
def st4 : VocabState := ⟨[("institutions", []), ("role", [])], []⟩

/-- An organization whose disambiguation block has source GRID but a null
identifier. -/
def org0 : Organization := ⟨"X", some ⟨some "GRID", none⟩⟩

/-- An organization without a disambiguation block. -/
def org1 : Organization := ⟨"X", none⟩

/-- Modelled from the spec: the claim's identifier pattern, a capital
letter followed by digits. -/
def claim_id_shape (s : String) : Bool :=
  match s.toList with
  | [] => false
  | c :: rest => c.isUpper && !rest.isEmpty && rest.all (fun d => d.isDigit)

/-! ## Association-list lemmas about the Python dict model -/

theorem dict_contains_eq_isSome {β : Type u} (d : PyDict β) (k : String) :
    dict_contains d k = (dict_find d k).isSome := by
  induction d with
  | nil => rfl
  | cons p rest ih =>
    by_cases h : p.1 = k
    · simp [dict_contains, dict_find, List.find?_cons, h]
    · simp only [dict_contains, dict_find, List.any_cons, List.find?_cons] at *
      simp [h, ih]

theorem dict_find_eq_none_of_contains {β : Type u} {d : PyDict β} {k : String}
    (h : dict_contains d k = false) : dict_find d k = none := by
  cases hf : dict_find d k with
  | none => rfl
  | some v => rw [dict_contains_eq_isSome, hf] at h; simp at h

theorem find?_key_map {β : Type u} (d : PyDict β) (k : String) (v : β) :
    List.find? (fun p => p.1 = k) (d.map (fun p => if p.1 = k then (k, v) else p))
      = (List.find? (fun p => p.1 = k) d).map (fun p => if p.1 = k then (k, v) else p) := by
  rw [List.find?_map]
  have hp : ((fun p : String × β => decide (p.1 = k)) ∘ (fun p => if p.1 = k then (k, v) else p))
      = fun p : String × β => decide (p.1 = k) := by
    funext q
    by_cases h : q.1 = k <;> simp [h]
  rw [hp]

theorem dict_find_set_self {β : Type u} (d : PyDict β) (k : String) (v : β) :
    dict_find (dict_set d k v) k = some v := by
  unfold dict_set
  by_cases h : dict_contains d k
  · rw [if_pos h]
    unfold dict_find
    rw [find?_key_map]
    rw [dict_contains_eq_isSome] at h
    cases hf : List.find? (fun p => p.1 = k) d with
    | none => unfold dict_find at h; rw [hf] at h; simp at h
    | some q =>
      have hq : q.1 = k := by simpa using List.find?_some hf
      simp [hf, hq]
  · rw [if_neg h]
    unfold dict_find
    rw [List.find?_append]
    have h0 : List.find? (fun p : String × β => p.1 = k) d = none := by
      have h1 := dict_find_eq_none_of_contains (d := d) (k := k) (by simpa using h)
      unfold dict_find at h1
      exact Option.map_eq_none.mp h1
    simp [h0, List.find?_cons]

theorem dict_find_set_ne {β : Type u} (d : PyDict β) {k k' : String} (v : β)
    (hne : k' ≠ k) : dict_find (dict_set d k v) k' = dict_find d k' := by
  unfold dict_set dict_find
  by_cases h : dict_contains d k
  · rw [if_pos h, List.find?_map]
    have hp : ((fun p : String × β => decide (p.1 = k')) ∘ (fun p => if p.1 = k then (k, v) else p))
        = fun p : String × β => decide (p.1 = k') := by
      funext q
      by_cases hq : q.1 = k
      · simp [hq]
      · simp [hq]
    rw [hp]
    cases hf : List.find? (fun p : String × β => p.1 = k') d with
    | none => simp
    | some q =>
      have hq : q.1 = k' := by simpa using List.find?_some hf
      have hqk : ¬ q.1 = k := by rw [hq]; exact hne
      simp [hqk]
  · rw [if_neg h, List.find?_append]
    have h1 : List.find? (fun p : String × β => p.1 = k') [(k, v)] = none := by
      simp [List.find?_cons, Ne.symm hne]
    rw [h1, Option.or_none]

theorem dict_get_set_self {β : Type u} [Inhabited β] (d : PyDict β) (k : String) (v : β) :
    dict_get (dict_set d k v) k = v := by
  unfold dict_get
  rw [dict_find_set_self]
  rfl

theorem dict_contains_set_self {β : Type u} (d : PyDict β) (k : String) (v : β) :
    dict_contains (dict_set d k v) k = true := by
  rw [dict_contains_eq_isSome, dict_find_set_self]
  rfl

/-! ## Claim theorems -/

/-- Claim C1: `lookup_id` returns the last path segment of the single
binding's item URI when the query yields exactly one binding, and the
supplied default unchanged when it yields zero or several bindings. -/
theorem c1_lookup_id_binding_rule (query_wikidata : String → List Binding)
    (id property default : String) :
    (∀ b : Binding, query_wikidata (build_query property id) = [b] →
      lookup_id query_wikidata id property default
        = String.mk ((py_split '/' b.item_value.toList).getLastD [])) ∧
    ((query_wikidata (build_query property id)).length ≠ 1 →
      lookup_id query_wikidata id property default = default) := by
  constructor
  · intro b hb
    simp only [lookup_id]
    rw [hb]
  · intro hlen
    simp only [lookup_id]
    rcases hbs : query_wikidata (build_query property id) with _ | ⟨a, _ | ⟨b, l⟩⟩
    · rfl
    · rw [hbs] at hlen; simp at hlen
    · rfl

/-- Witness for C1 at concrete inputs: one binding resolves to its last
path segment, zero bindings fall back to the default. -/
theorem c1_witness :
    (qw0 (build_query "P2427" "None") = [⟨"http://www.wikidata.org/entity/Q7"⟩] ∧
      lookup_id qw0 "None" "P2427" "X"
        = String.mk ((py_split '/' "http://www.wikidata.org/entity/Q7".toList).getLastD [])) ∧
    ((qw0 (build_query "P496" "0000-0001")).length ≠ 1 ∧
      lookup_id qw0 "0000-0001" "P496" "LAST" = "LAST") :=
  ⟨⟨by decide, (c1_lookup_id_binding_rule qw0 "None" "P2427" "X").1
      ⟨"http://www.wikidata.org/entity/Q7"⟩ (by decide)⟩,
   ⟨by decide, (c1_lookup_id_binding_rule qw0 "0000-0001" "P496" "LAST").2 (by decide)⟩⟩

/-- Claim C4: on a vocabulary miss, `get_qid_for_item` returns the newly
assigned identifier, the in-memory mapping afterwards contains the label
mapped to it, and the category's storage has been overwritten with the
pretty-printed, key-sorted serialization of the full updated mapping. -/
theorem c4_vocab_miss_assigns_and_persists (assign : String → String) (st : VocabState)
    (key target_item : String)
    (hkey : dict_contains st.dicts key = true)
    (habs : dict_contains (dict_get st.dicts key) target_item = false) :
    (get_qid_for_item assign st key target_item).1 = assign target_item ∧
    dict_find (dict_get (get_qid_for_item assign st key target_item).2.dicts key) target_item
      = some (assign target_item) ∧
    (get_qid_for_item assign st key target_item).2.writes
      = st.writes ++ [(key,
          json_dumps (dict_set (dict_get st.dicts key) target_item (assign target_item)))] := by
  unfold get_qid_for_item add_key
  simp only [habs, Bool.false_eq_true, not_false_eq_true, if_true, if_pos]
  refine ⟨?_, ?_, ?_⟩
  · simp [dict_get_set_self]
  · simp only [dict_get_set_self, dict_find_set_self]
  · trivial

/-- Witness for C4: looking the absent label `X` up in the empty
`institutions` mapping assigns, persists, and returns `Q999`. -/
theorem c4_witness :
    (dict_contains st4.dicts "institutions" = true ∧
      dict_contains (dict_get st4.dicts "institutions") "X" = false) ∧
    ((get_qid_for_item assign0 st4 "institutions" "X").1 = assign0 "X" ∧
      dict_find (dict_get (get_qid_for_item assign0 st4 "institutions" "X").2.dicts
        "institutions") "X" = some (assign0 "X") ∧
      (get_qid_for_item assign0 st4 "institutions" "X").2.writes
        = st4.writes ++ [("institutions",
            json_dumps (dict_set (dict_get st4.dicts "institutions") "X" (assign0 "X")))]) :=
  ⟨⟨by decide, by decide⟩,
   c4_vocab_miss_assigns_and_persists assign0 st4 "institutions" "X" (by decide) (by decide)⟩

/-- Claim C5: on a vocabulary hit, `get_qid_for_item` returns the stored
identifier and leaves the state (mappings and persisted writes)
unchanged. -/
theorem c5_vocab_hit_no_write (assign : String → String) (st : VocabState)
    (key target_item : String)
    (hpres : dict_contains (dict_get st.dicts key) target_item = true) :
    get_qid_for_item assign st key target_item
      = (dict_get (dict_get st.dicts key) target_item, st) := by
  unfold get_qid_for_item
  simp [hpres]

/-- Witness for C5: the label `X` is present in the `institutions`
mapping of `st0`; the lookup returns `Q9` and does not change the
state. -/
theorem c5_witness :
    dict_contains (dict_get st0.dicts "institutions") "X" = true ∧
    get_qid_for_item assign0 st0 "institutions" "X"
      = (dict_get (dict_get st0.dicts "institutions") "X", st0) :=
  ⟨by decide, c5_vocab_hit_no_write assign0 st0 "institutions" "X" (by decide)⟩

/-- Claim C6: the date-extraction rule: absent block renders as the empty
string; year only as `+y-00-00T00:00:00Z/9`; year and month as
`+y-m-00T00:00:00Z/10`; year, month and day as `+y-m-dT00:00:00Z/11`. -/
theorem c6_get_date_rule (y m d : String) :
    get_date none = some "" ∧
    get_date (some ⟨some y, none, none⟩) = some ("+" ++ y ++ "-00-00T00:00:00Z/9") ∧
    get_date (some ⟨some y, some m, none⟩)
      = some ("+" ++ y ++ "-" ++ m ++ "-00T00:00:00Z/10") ∧
    get_date (some ⟨some y, some m, some d⟩)
      = some ("+" ++ y ++ "-" ++ m ++ "-" ++ d ++ "T00:00:00Z/11") := by
  refine ⟨rfl, ?_, ?_, ?_⟩ <;> simp [get_date, String.append_assoc] <;> rfl

/-- Claim C9: when every present date block has a non-null year,
`get_date` is total (its result is a defined string); when a present
block has a null year but a non-null month or day, the unassigned-year
error branch is reached. -/
theorem c9_get_date_totality (db : Option DateBlock) (b : DateBlock)
    (hwf : ∀ x, db = some x → x.year.isSome = true)
    (hyear : b.year = none) (hmd : b.month.isSome = true ∨ b.day.isSome = true) :
    (get_date db).isSome = true ∧ get_date (some b) = none := by
  constructor
  · cases db with
    | none => rfl
    | some x =>
      have hx : x.year.isSome = true := hwf x rfl
      obtain ⟨yv, hy⟩ := Option.isSome_iff_exists.mp hx
      cases hm : x.month <;> cases hd : x.day <;> simp [get_date, hy, hm, hd]
  · cases hm : b.month <;> cases hd : b.day <;> simp [get_date, hyear, hm, hd]

/-- Claim C2 as stated is false: with a GRID source and a null
disambiguated identifier, `get_institution_qid` still performs the remote
lookup (over the stringified null), not the vocabulary-store resolution
the claim requires for that case. -/
theorem c2_counterexample :
    org0.disambiguated_organization = some ⟨some "GRID", none⟩ ∧
    get_institution_qid qw0 assign0 st0 org0 "X" = ("Q7", st0) ∧
    get_qid_for_item assign0 st0 "institutions" "X" = ("Q9", st0) ∧
    get_institution_qid qw0 assign0 st0 org0 "X"
      ≠ get_qid_for_item assign0 st0 "institutions" "X" := by
  exact ⟨rfl, by decide, by decide, by decide⟩

/-- Claim C2 (amended): the routing checks only that the disambiguation
block is present with source `"GRID"`; in that case the remote lookup is
attempted with the stringified (possibly null) identifier and the plain
name as default, and when the query does not yield exactly one binding
the plain name itself is returned; only a missing block or a non-GRID
source routes to the vocabulary store under `"institutions"`. -/
theorem c2_institution_routing (query_wikidata : String → List Binding)
    (assign : String → String) (st : VocabState) (org : Organization) (name : String) :
    (∀ dis, org.disambiguated_organization = some dis →
      dis.disambiguation_source = some "GRID" →
      get_institution_qid query_wikidata assign st org name
        = (lookup_id query_wikidata (py_str dis.disambiguated_organization_identifier)
            "P2427" name, st)) ∧
    (∀ dis, org.disambiguated_organization = some dis →
      dis.disambiguation_source = some "GRID" →
      (query_wikidata (build_query "P2427"
          (py_str dis.disambiguated_organization_identifier))).length ≠ 1 →
      get_institution_qid query_wikidata assign st org name = (name, st)) ∧
    (∀ dis, org.disambiguated_organization = some dis →
      dis.disambiguation_source ≠ some "GRID" →
      get_institution_qid query_wikidata assign st org name
        = get_qid_for_item assign st "institutions" name) ∧
    (org.disambiguated_organization = none →
      get_institution_qid query_wikidata assign st org name
        = get_qid_for_item assign st "institutions" name) := by
  refine ⟨?_, ?_, ?_, ?_⟩
  · intro dis hdis hsrc
    simp [get_institution_qid, hdis, hsrc]
  · intro dis hdis hsrc hlen
    simp only [get_institution_qid, hdis, hsrc, if_pos rfl]
    simp only [lookup_id]
    rcases hbs : query_wikidata (build_query "P2427"
        (py_str dis.disambiguated_organization_identifier)) with _ | ⟨a, _ | ⟨b, l⟩⟩
    · rfl
    · rw [hbs] at hlen; simp at hlen
    · rfl
  · intro dis hdis hsrc
    simp [get_institution_qid, hdis, hsrc]
  · intro hdis
    simp [get_institution_qid, hdis]

/-- Witness for C2's amended routing: the GRID-with-null-identifier
organization takes the remote route, the block-less organization takes
the vocabulary route. -/
theorem c2_witness :
    (org0.disambiguated_organization = some ⟨some "GRID", none⟩ ∧
      get_institution_qid qw0 assign0 st0 org0 "X"
        = (lookup_id qw0 (py_str (none : Option String)) "P2427" "X", st0)) ∧
    (org1.disambiguated_organization = none ∧
      get_institution_qid qw0 assign0 st0 org1 "X"
        = get_qid_for_item assign0 st0 "institutions" "X") :=
  ⟨⟨rfl, (c2_institution_routing qw0 assign0 st0 org0 "X").1 ⟨some "GRID", none⟩ rfl rfl⟩,
   ⟨rfl, (c2_institution_routing qw0 assign0 st0 org1 "X").2.2.2 rfl⟩⟩

/-- Claim C3 as stated is false: the label `"Queensland"` does not match
the claimed identifier pattern (capital letter followed by digits), yet
`process_item` returns it unchanged instead of resolving it through the
store, because `re.findall("Q[0-9]*", ...)` matches the bare `Q` inside
the word. -/
theorem c3_counterexample :
    claim_id_shape "Queensland" = false ∧
    process_item assign0 "" "P1" "institutions" ["Queensland"] "Q1" "" none st0
      = ("\nQ1|P1|Queensland", st0) ∧
    process_item assign0 "" "P1" "institutions" ["Queensland"] "Q1" "" none st0
      ≠ ("\nQ1|P1|" ++ dict_get (dict_get st0.dicts "institutions") "Queensland", st0) := by
  exact ⟨by decide, by decide, by decide⟩

/-- Claim C3 (amended): a label is bypassed (returned unchanged, store
untouched) exactly when it contains the capital letter `Q` anywhere
(`re.findall("Q[0-9]*", label)` is non-empty); labels without a `Q` go
through the store. -/
theorem c3_bypass_rule (assign : String → String)
    (qs property_id original_dict subject_qid ref target : String) (st : VocabState)
    (qnd : Option (PyDict (PyDict String))) :
    ('Q' ∈ target.toList →
      (process_item assign qs property_id original_dict [target] subject_qid ref qnd st).2
        = st) ∧
    ('Q' ∈ target.toList →
      (process_item assign qs property_id original_dict [target] subject_qid ref none st).1
        = qs ++ "\n" ++ subject_qid ++ "|" ++ property_id ++ "|" ++ target ++ ref) ∧
    ('Q' ∉ target.toList →
      process_item assign qs property_id original_dict [target] subject_qid ref none st
        = (qs ++ "\n" ++ subject_qid ++ "|" ++ property_id ++ "|"
            ++ (get_qid_for_item assign st original_dict target).1 ++ ref,
           (get_qid_for_item assign st original_dict target).2)) := by
  refine ⟨?_, ?_, ?_⟩
  · intro hQ
    have hne : findall_Q target.data ≠ [] := by
      simpa [String.toList] using (findall_Q_ne_nil_iff target.toList).mpr hQ
    cases qnd <;> simp [process_item, hne]
  · intro hQ
    have hne : findall_Q target.data ≠ [] := by
      simpa [String.toList] using (findall_Q_ne_nil_iff target.toList).mpr hQ
    simp [process_item, hne]
  · intro hQ
    have hne : findall_Q target.data = [] := by
      have := (findall_Q_ne_nil_iff target.toList).not.mpr hQ
      simpa [String.toList] using this
    simp [process_item, hne]

/-- Witness for C3's amended rule: `"Q42"` is bypassed with the store
untouched; `"Foo"` is resolved through the store. -/
theorem c3_witness :
    ('Q' ∈ "Q42".toList ∧
      (process_item assign0 "" "P108" "institutions" ["Q42"] "Q1" "" none st0).2 = st0 ∧
      (process_item assign0 "" "P108" "institutions" ["Q42"] "Q1" "" none st0).1
        = "" ++ "\n" ++ "Q1" ++ "|" ++ "P108" ++ "|" ++ "Q42" ++ "") ∧
    ('Q' ∉ "Foo".toList ∧
      process_item assign0 "" "P108" "institutions" ["Foo"] "Q1" "" none st0
        = ("" ++ "\n" ++ "Q1" ++ "|" ++ "P108" ++ "|"
            ++ (get_qid_for_item assign0 st0 "institutions" "Foo").1 ++ "",
           (get_qid_for_item assign0 st0 "institutions" "Foo").2)) :=
  ⟨⟨by decide,
    (c3_bypass_rule assign0 "" "P108" "institutions" "Q1" "" "Q42" st0 none).1 (by decide),
    (c3_bypass_rule assign0 "" "P108" "institutions" "Q1" "" "Q42" st0 none).2.1 (by decide)⟩,
   ⟨by decide,
    (c3_bypass_rule assign0 "" "P108" "institutions" "Q1" "" "Foo" st0 none).2.2 (by decide)⟩⟩

/-- Claim C7: the statement assembler emits no qualifier pairs for an
entry with an absent role and empty dates, exactly the start qualifier
when only the start date is present, both date qualifiers when both dates
are present, and never an end qualifier when the start date is empty. -/
theorem c7_assembler_qualifier_rule
    (qs subject_qid ref property_id role_property_id inst sd ed : String)
    (role : Option String) :
    (process_affiliation_entries qs subject_qid ref
        [⟨none, inst, "", ""⟩] property_id role_property_id
      = qs ++ "\n        " ++ subject_qid ++ "|" ++ property_id ++ "|" ++ inst ++ ref) ∧
    (sd ≠ "" →
      process_affiliation_entries qs subject_qid ref
          [⟨role, inst, sd, ""⟩] property_id role_property_id
        = qs ++ "\n        " ++ subject_qid ++ "|" ++ property_id ++ "|" ++ inst
            ++ role.elim "" (fun r => "|" ++ role_property_id ++ "|" ++ r)
            ++ "|P580|" ++ sd ++ ref) ∧
    (sd ≠ "" → ed ≠ "" →
      process_affiliation_entries qs subject_qid ref
          [⟨role, inst, sd, ed⟩] property_id role_property_id
        = qs ++ "\n        " ++ subject_qid ++ "|" ++ property_id ++ "|" ++ inst
            ++ role.elim "" (fun r => "|" ++ role_property_id ++ "|" ++ r)
            ++ "|P580|" ++ sd ++ "|P582|" ++ ed ++ ref) ∧
    (process_affiliation_entries qs subject_qid ref
        [⟨role, inst, "", ed⟩] property_id role_property_id
      = qs ++ "\n        " ++ subject_qid ++ "|" ++ property_id ++ "|" ++ inst
          ++ role.elim "" (fun r => "|" ++ role_property_id ++ "|" ++ r) ++ ref) := by
  refine ⟨?_, ?_, ?_, ?_⟩
  · simp [process_affiliation_entries]
  · intro hsd
    cases role <;>
      simp [process_affiliation_entries, hsd, String.append_assoc, String.append_empty]
  · intro hsd hed
    cases role <;>
      simp [process_affiliation_entries, hsd, hed, String.append_assoc, String.append_empty]
  · cases role <;>
      simp [process_affiliation_entries, String.append_assoc, String.append_empty]

/-- Witness for C7 at concrete entries: start only gives one date
qualifier, start and end give two. -/
theorem c7_witness :
    (("+2020-00-00T00:00:00Z/9" : String) ≠ "" ∧
      process_affiliation_entries "" "Q1" "|S854|\"u\""
          [⟨some "Q11", "Q42", "+2020-00-00T00:00:00Z/9", ""⟩] "P108" "P2868"
        = "" ++ "\n        " ++ "Q1" ++ "|" ++ "P108" ++ "|" ++ "Q42"
            ++ (some "Q11").elim "" (fun r => "|" ++ "P2868" ++ "|" ++ r)
            ++ "|P580|" ++ "+2020-00-00T00:00:00Z/9" ++ "|S854|\"u\"") ∧
    (("+2021-00-00T00:00:00Z/9" : String) ≠ "" ∧
      process_affiliation_entries "" "Q1" "|S854|\"u\""
          [⟨none, "Q42", "+2020-00-00T00:00:00Z/9", "+2021-00-00T00:00:00Z/9"⟩] "P108" "P2868"
        = "" ++ "\n        " ++ "Q1" ++ "|" ++ "P108" ++ "|" ++ "Q42"
            ++ (none : Option String).elim "" (fun r => "|" ++ "P2868" ++ "|" ++ r)
            ++ "|P580|" ++ "+2020-00-00T00:00:00Z/9"
            ++ "|P582|" ++ "+2021-00-00T00:00:00Z/9" ++ "|S854|\"u\"") :=
  ⟨⟨by decide,
    (c7_assembler_qualifier_rule "" "Q1" "|S854|\"u\"" "P108" "P2868" "Q42"
        "+2020-00-00T00:00:00Z/9" "" (some "Q11")).2.1 (by decide)⟩,
   ⟨by decide,
    (c7_assembler_qualifier_rule "" "Q1" "|S854|\"u\"" "P108" "P2868" "Q42"
        "+2020-00-00T00:00:00Z/9" "+2021-00-00T00:00:00Z/9" none).2.2.1
      (by decide) (by decide)⟩⟩

/-- Claim C8: the affiliation extractor yields exactly one entry per
input record, in input order: the i-th entry's dates and role presence
come from the i-th record. -/
theorem c8_extract_order (query_wikidata : String → List Binding)
    (assign : String → String) (st : VocabState) (data : List RawRecord)
    (entries : List AffiliationEntry) (st' : VocabState)
    (h : get_affiliation_info query_wikidata assign st data = some (entries, st')) :
    entries.length = data.length ∧
    ∀ i (h1 : i < entries.length) (h2 : i < data.length),
      some (entries.get ⟨i, h1⟩).start_date = get_date (data.get ⟨i, h2⟩).start_date ∧
      some (entries.get ⟨i, h1⟩).end_date = get_date (data.get ⟨i, h2⟩).end_date ∧
      (entries.get ⟨i, h1⟩).role.isSome = (data.get ⟨i, h2⟩).role_title.isSome := by
  induction data generalizing st entries st' with
  | nil =>
    simp only [get_affiliation_info, Option.some.injEq, Prod.mk.injEq] at h
    obtain ⟨he, _⟩ := h
    subst he
    exact ⟨rfl, fun i h1 h2 => absurd h1 (by simp)⟩
  | cons r rest ih =>
    cases hr : r.role_title with
    | none =>
      simp only [get_affiliation_info, hr] at h
      cases hsd : get_date r.start_date with
      | none => rw [hsd] at h; simp at h
      | some sd =>
        cases hed : get_date r.end_date with
        | none => rw [hsd, hed] at h; simp at h
        | some ed =>
          rw [hsd, hed] at h
          simp only [] at h
          split at h
          case _ es st3 heq =>
            simp only [Option.some.injEq, Prod.mk.injEq] at h
            obtain ⟨he, hst⟩ := h
            subst he
            obtain ⟨ihlen, ihidx⟩ := ih _ _ _ heq
            refine ⟨by simpa using ihlen, ?_⟩
            intro i h1 h2
            cases i with
            | zero => exact ⟨hsd.symm, hed.symm, by simp [hr]⟩
            | succ j =>
              exact ihidx j (by simpa using h1) (by simpa using h2)
          case _ heq => simp at h
    | some title =>
      simp only [get_affiliation_info, hr] at h
      cases hsd : get_date r.start_date with
      | none => rw [hsd] at h; simp at h
      | some sd =>
        cases hed : get_date r.end_date with
        | none => rw [hsd, hed] at h; simp at h
        | some ed =>
          rw [hsd, hed] at h
          simp only [] at h
          split at h
          case _ es st3 heq =>
            simp only [Option.some.injEq, Prod.mk.injEq] at h
            obtain ⟨he, hst⟩ := h
            subst he
            obtain ⟨ihlen, ihidx⟩ := ih _ _ _ heq
            refine ⟨by simpa using ihlen, ?_⟩
            intro i h1 h2
            cases i with
            | zero => exact ⟨hsd.symm, hed.symm, by simp [hr]⟩
            | succ j =>
              exact ihidx j (by simpa using h1) (by simpa using h2)
          case _ heq => simp at h

/-- Witness for C8: one GRID-disambiguated record extracts to exactly one
entry whose fields come from that record. -/
theorem c8_witness :
    get_affiliation_info qw0 assign0 st0 [⟨none, none, none, org0⟩]
      = some ([⟨none, "Q7", "", ""⟩], st0) ∧
    ([⟨none, "Q7", "", ""⟩] : List AffiliationEntry).length
      = ([⟨none, none, none, org0⟩] : List RawRecord).length ∧
    ∀ i (h1 : i < ([⟨none, "Q7", "", ""⟩] : List AffiliationEntry).length)
      (h2 : i < ([⟨none, none, none, org0⟩] : List RawRecord).length),
      some ((([⟨none, "Q7", "", ""⟩] : List AffiliationEntry).get ⟨i, h1⟩).start_date)
        = get_date ((([⟨none, none, none, org0⟩] : List RawRecord).get ⟨i, h2⟩).start_date) ∧
      some ((([⟨none, "Q7", "", ""⟩] : List AffiliationEntry).get ⟨i, h1⟩).end_date)
        = get_date ((([⟨none, none, none, org0⟩] : List RawRecord).get ⟨i, h2⟩).end_date) ∧
      ((([⟨none, "Q7", "", ""⟩] : List AffiliationEntry).get ⟨i, h1⟩).role.isSome)
        = ((([⟨none, none, none, org0⟩] : List RawRecord).get ⟨i, h2⟩).role_title.isSome) :=
  ⟨by decide,
   (c8_extract_order qw0 assign0 st0 [⟨none, none, none, org0⟩]
      [⟨none, "Q7", "", ""⟩] st0 (by decide)).1,
   (c8_extract_order qw0 assign0 st0 [⟨none, none, none, org0⟩]
      [⟨none, "Q7", "", ""⟩] st0 (by decide)).2⟩

theorem countP_key_eq_zero_of_not_contains {β : Type u} {d : PyDict β} {k : String}
    (h : dict_contains d k = false) :
    d.countP (fun p => p.1 = k) = 0 := by
  induction d with
  | nil => rfl
  | cons p rest ih =>
    simp only [dict_contains, List.any_cons, Bool.or_eq_false_iff] at h
    obtain ⟨h1, h2⟩ := h
    rw [List.countP_cons]
    have hrest : List.countP (fun p => decide (p.1 = k)) rest = 0 := ih h2
    simp [hrest, h1]

theorem countP_key_dict_set {β : Type u} (d : PyDict β) (k t : String) (v : β) :
    (dict_set d k v).countP (fun p => p.1 = t)
      = d.countP (fun p => p.1 = t)
        + (if dict_contains d k then 0 else if k = t then 1 else 0) := by
  unfold dict_set
  by_cases h : dict_contains d k
  · rw [if_pos h, if_pos h, List.countP_map]
    have hp : ((fun p : String × β => decide (p.1 = t)) ∘ (fun p => if p.1 = k then (k, v) else p))
        = fun p : String × β => decide (p.1 = t) := by
      funext q
      by_cases hq : q.1 = k
      · simp [hq]
      · simp [hq]
    rw [hp]
    simp
  · rw [if_neg h, if_neg h, List.countP_append]
    simp [List.countP_cons]

theorem get_external_ids_countP_le_one_aux (id_list : List ExternalId) (t : String) :
    ∀ d : PyDict String, d.countP (fun p => p.1 = t) ≤ 1 →
      (id_list.foldl
          (fun id_dict i => dict_set id_dict i.external_id_type i.external_id_value) d).countP
        (fun p => p.1 = t) ≤ 1 := by
  induction id_list with
  | nil => intro d hd; simpa using hd
  | cons i rest ih =>
    intro d hd
    simp only [List.foldl_cons]
    apply ih
    rw [countP_key_dict_set]
    by_cases hc : dict_contains d i.external_id_type
    · simpa [hc] using hd
    · by_cases ht : i.external_id_type = t
      · have h0 : d.countP (fun p => p.1 = t) = 0 := by
          rw [← ht]
          exact countP_key_eq_zero_of_not_contains (by simpa using hc)
        have hc' : dict_contains d t = false := by
          rw [← ht]
          simpa using hc
        simp [hc', ht, h0]
      · simpa [hc, ht] using hd

theorem dict_find_foldl_set (id_list : List ExternalId) (t : String) :
    ∀ d : PyDict String,
      dict_find
          (id_list.foldl
            (fun id_dict i => dict_set id_dict i.external_id_type i.external_id_value) d) t
        = ((id_list.reverse.find? (fun i => i.external_id_type = t)).map
            (fun i => i.external_id_value)).or (dict_find d t) := by
  induction id_list with
  | nil => intro d; simp
  | cons i rest ih =>
    intro d
    simp only [List.foldl_cons, List.reverse_cons, List.find?_append, ih]
    cases hf : rest.reverse.find? (fun i => i.external_id_type = t) with
    | some j => simp [Option.or_some]
    | none =>
      simp only [Option.none_or]
      by_cases ht : i.external_id_type = t
      · have hfind := dict_find_set_self d i.external_id_type i.external_id_value
        rw [ht] at hfind
        simp [List.find?_cons, ht, hfind]
      · have hfind := @dict_find_set_ne String d i.external_id_type t
          i.external_id_value (fun hc => ht hc.symm)
        simp [List.find?_cons, ht, hfind]

/-- Claim C10: when the external-identifier list carries several entries
of the same type, the collected dict keeps only the last entry's value
for that type, and holds at most one entry per type (so the rendering
loop emits at most one statement line per recognized type). -/
theorem c10_external_ids_last_wins (id_list : List ExternalId) (t : String)
    (hdup : 2 ≤ (id_list.filter (fun i => i.external_id_type = t)).length) :
    dict_find (get_external_ids id_list) t
      = (id_list.reverse.find? (fun i => i.external_id_type = t)).map
          (fun i => i.external_id_value) ∧
    (get_external_ids id_list).countP (fun p => p.1 = t) ≤ 1 := by
  constructor
  · have h := dict_find_foldl_set id_list t []
    simpa [get_external_ids, dict_find] using h
  · exact get_external_ids_countP_le_one_aux id_list t [] (by simp)

/-- Witness for C10: two `Loop profile` entries collapse to the later
value `222`. -/
theorem c10_witness :
    2 ≤ (([⟨"Loop profile", "111"⟩, ⟨"Loop profile", "222"⟩, ⟨"ResearcherID", "r1"⟩] :
        List ExternalId).filter (fun i => i.external_id_type = "Loop profile")).length ∧
    (dict_find
        (get_external_ids
          [⟨"Loop profile", "111"⟩, ⟨"Loop profile", "222"⟩, ⟨"ResearcherID", "r1"⟩])
        "Loop profile"
      = (([⟨"Loop profile", "111"⟩, ⟨"Loop profile", "222"⟩, ⟨"ResearcherID", "r1"⟩] :
          List ExternalId).reverse.find? (fun i => i.external_id_type = "Loop profile")).map
          (fun i => i.external_id_value) ∧
      (get_external_ids
          [⟨"Loop profile", "111"⟩, ⟨"Loop profile", "222"⟩, ⟨"ResearcherID", "r1"⟩]).countP
        (fun p => p.1 = "Loop profile") ≤ 1) :=
  ⟨by decide,
   c10_external_ids_last_wins
     [⟨"Loop profile", "111"⟩, ⟨"Loop profile", "222"⟩, ⟨"ResearcherID", "r1"⟩]
     "Loop profile" (by decide)⟩

/-- Witness for C9 at concrete blocks: a year-bearing block renders; a
month-only block reaches the error branch. -/
theorem c9_witness :
    ((∀ x, (some (⟨some "2020", none, none⟩ : DateBlock)) = some x → x.year.isSome = true) ∧
      (⟨none, some "05", none⟩ : DateBlock).year = none ∧
      ((⟨none, some "05", none⟩ : DateBlock).month.isSome = true ∨
        (⟨none, some "05", none⟩ : DateBlock).day.isSome = true)) ∧
    ((get_date (some ⟨some "2020", none, none⟩)).isSome = true ∧
      get_date (some ⟨none, some "05", none⟩) = none) :=
  ⟨⟨fun x hx => by cases hx; rfl, rfl, Or.inl rfl⟩,
   c9_get_date_totality (some ⟨some "2020", none, none⟩) ⟨none, some "05", none⟩
     (fun x hx => by cases hx; rfl) rfl (Or.inl rfl)⟩
